import Mathlib

/-!
Shallow embedding of `src/main.c` from the clog repository.

The program is a single `main` function:

  int main(int argc, char **argv) {
    if (argc < 3) {
      puts("Usage: clog <input dir> <output dir>");
      return 1;
    }
    char *input_dir = argv[1];
    char *output_dir = argv[2];
    printf("input dir: %s\n", input_dir);
    printf("output dir: %s\n", output_dir);
    return 0;
  }

We model the argument vector as a `List String` (position 0 is the
invocation name, so `argc = argv.length`), observable behaviour as a
trace of `Effect`s plus the exit status, and any array access out of
bounds as `none` (so totality of the model is a real theorem, not a
triviality).  `puts` appends a newline to its argument; `printf` is
modelled by `formatS`, which substitutes the first `%s` directive of the
format string with its data argument and copies every other character
of the format verbatim — exactly the behaviour of the two `printf`
calls in the source, each of which has exactly one directive.

The program receives a `World` (environment variables, configuration,
persisted state); the C source contains no `getenv`, no file I/O and no
reads of any ambient state, so the translation of its body never
consults the world.
-/

/-- One observable side effect of a run. -/
inductive Effect where
  | writeStdout (s : String)
  | writeStderr (s : String)
  | readStdin
  | fsAccess (path : String)
  | netAccess
  | envRead (name : String)
deriving DecidableEq

/-- Ambient state a process could in principle consult: environment
variables, configuration files, persisted state. -/
structure World where
  env : List (String × String)
  config : List (String × String)
  persisted : List String

/-- `puts s` writes `s` followed by a newline to standard output. -/
def putsEffect (s : String) : Effect :=
  Effect.writeStdout (s ++ "\n")

/-- Substitute the first `%s` directive of `fmt` (given as a character
list) with the data argument `arg`; all other characters are copied
verbatim, and once the single directive is consumed the rest of the
format is copied literally (the source's format strings have exactly
one directive each). -/
def formatSAux : List Char → String → List Char
  | [], _ => []
  | '%' :: 's' :: rest, arg => arg.data ++ rest
  | c :: rest, arg => c :: formatSAux rest arg

/-- `printf fmt arg` for a format string with a single `%s` directive. -/
def formatS (fmt : String) (arg : String) : String :=
  String.mk (formatSAux fmt.data arg)

/-- Translation of `main`: branch on `argc < 3`; on the short branch,
`puts` the usage line and return 1; otherwise read `argv[1]` and
`argv[2]` (modelled as `Option`-returning accesses, `none` on an
out-of-bounds read), print both via `printf` and return 0.  The world
is never consulted, as in the source. -/
def mainRun (argv : List String) (w : World) : Option (List Effect × Nat) :=
  if argv.length < 3 then
    some ([putsEffect "Usage: clog <input dir> <output dir>"], 1)
  else
    match argv[1]?, argv[2]? with
    | some input_dir, some output_dir =>
        some ([Effect.writeStdout (formatS "input dir: %s\n" input_dir),
               Effect.writeStdout (formatS "output dir: %s\n" output_dir)], 0)
    | _, _ => none

/-- Everything a trace writes to standard output, in order. -/
def stdoutOf : List Effect → String
  | [] => ""
  | Effect.writeStdout s :: rest => s ++ stdoutOf rest
  | _ :: rest => stdoutOf rest

/-- Everything a trace writes to standard error, in order. -/
def stderrOf : List Effect → String
  | [] => ""
  | Effect.writeStderr s :: rest => s ++ stderrOf rest
  | _ :: rest => stderrOf rest

theorem formatS_input (x : String) :
    formatS "input dir: %s\n" x = "input dir: " ++ x ++ "\n" := by
  apply String.ext
  simp [formatS, formatSAux, String.data_append]

theorem formatS_output (x : String) :
    formatS "output dir: %s\n" x = "output dir: " ++ x ++ "\n" := by
  apply String.ext
  simp [formatS, formatSAux, String.data_append]

/-- On any argument list with at least three tokens, `main` takes the
success branch and its trace and exit status are fully determined by
the first two positional arguments. -/
theorem mainRun_success (a0 a1 a2 : String) (rest : List String) (w : World) :
    mainRun (a0 :: a1 :: a2 :: rest) w =
      some ([Effect.writeStdout ("input dir: " ++ a1 ++ "\n"),
             Effect.writeStdout ("output dir: " ++ a2 ++ "\n")], 0) := by
  simp [mainRun, formatS_input, formatS_output]

/-- On any argument list with fewer than three tokens, `main` takes the
usage branch. -/
theorem mainRun_short (argv : List String) (w : World) (h : argv.length < 3) :
    mainRun argv w =
      some ([Effect.writeStdout "Usage: clog <input dir> <output dir>\n"], 1) := by
  simp [mainRun, h, putsEffect]

/-- The success-branch stdout never equals the usage line: its first
character is an i, not a U. -/
theorem success_stdout_ne_usage (a1 a2 : String) :
    "input dir: " ++ a1 ++ "\n" ++ ("output dir: " ++ a2 ++ "\n") ≠
      "Usage: clog <input dir> <output dir>" ++ "\n" := by
  intro h
  have h2 := congrArg (fun s => s.data.head?) h
  simp [String.data_append] at h2

/-- C1: an invocation whose argument list has fewer than three tokens
writes exactly the line `Usage: clog <input dir> <output dir>` followed
by a newline to standard output and exits with status 1. -/
theorem C1_usage_line (argv : List String) (w : World) (h : argv.length < 3) :
    ∃ es, mainRun argv w = some (es, 1) ∧
      stdoutOf es = "Usage: clog <input dir> <output dir>\n" := by
  refine ⟨_, mainRun_short argv w h, ?_⟩
  simp [stdoutOf]

theorem C1_usage_line_witness :
    (["clog"] : List String).length < 3 ∧
      ∃ es, mainRun ["clog"] ⟨[], [], []⟩ = some (es, 1) ∧
        stdoutOf es = "Usage: clog <input dir> <output dir>\n" :=
  ⟨by decide, C1_usage_line ["clog"] ⟨[], [], []⟩ (by decide)⟩

/-- C2: an invocation whose argument list has at least three tokens
writes exactly the two lines `input dir: <first positional>` and
`output dir: <second positional>`, in that order, and exits with
status 0. -/
theorem C2_success_lines (a0 a1 a2 : String) (rest : List String) (w : World) :
    mainRun (a0 :: a1 :: a2 :: rest) w =
      some ([Effect.writeStdout ("input dir: " ++ a1 ++ "\n"),
             Effect.writeStdout ("output dir: " ++ a2 ++ "\n")], 0) :=
  mainRun_success a0 a1 a2 rest w

/-- C3: every invocation exits with status 0 or 1; the status is 1
exactly when the argument list has fewer than three tokens (fewer than
two positional arguments), the usage message is printed exactly in that
case, and in every other case the status is 0. -/
theorem C3_exit_status (argv : List String) (w : World) :
    ∃ es code, mainRun argv w = some (es, code) ∧
      (code = 0 ∨ code = 1) ∧
      (code = 1 ↔ argv.length < 3) ∧
      (stdoutOf es = "Usage: clog <input dir> <output dir>\n" ↔ argv.length < 3) := by
  by_cases h : argv.length < 3
  · exact ⟨_, _, mainRun_short argv w h, Or.inr rfl, by simp [h], by simp [stdoutOf, h]⟩
  · match argv, h with
    | [], h => exact absurd (by simp) h
    | [_], h => exact absurd (by simp) h
    | [_, _], h => exact absurd (by simp) h
    | a0 :: a1 :: a2 :: rest, h =>
      refine ⟨_, _, mainRun_success a0 a1 a2 rest w, Or.inl rfl, by simp [h], ?_⟩
      constructor
      · intro hs
        exact absurd (by simpa [stdoutOf] using hs) (success_stdout_ne_usage a1 a2)
      · intro hlt
        exact absurd hlt h


/-- C4: two invocations that agree on the invocation name and the first
two positional arguments, however they differ beyond the second
positional argument, produce identical traces (hence identical standard
output) and identical exit statuses. -/
theorem C4_extra_args_ignored (a0 a1 a2 : String) (rest rest2 : List String)
    (w : World) :
    mainRun (a0 :: a1 :: a2 :: rest) w = mainRun (a0 :: a1 :: a2 :: rest2) w := by
  rw [mainRun_success, mainRun_success]

/-- C5: the program is total on every argument list: the model never
reaches an out-of-bounds read of `argv` (which would be `none`), so
every invocation, malformed ones included, produces a result. -/
theorem C5_total (argv : List String) (w : World) :
    ∃ r, mainRun argv w = some r := by
  by_cases h : argv.length < 3
  · exact ⟨_, mainRun_short argv w h⟩
  · match argv, h with
    | [], h => exact absurd (by simp) h
    | [_], h => exact absurd (by simp) h
    | [_, _], h => exact absurd (by simp) h
    | a0 :: a1 :: a2 :: rest, h => exact ⟨_, mainRun_success a0 a1 a2 rest w⟩

/-- C6: on every invocation the trace consists solely of writes to
standard output — no stdin read, no stderr write, no file-system,
network or environment access — so the usage message too goes to
standard output and standard error stays empty. -/
theorem C6_stdout_only (argv : List String) (w : World) :
    ∃ es code, mainRun argv w = some (es, code) ∧
      (∀ e ∈ es, ∃ s, e = Effect.writeStdout s) ∧ stderrOf es = "" := by
  by_cases h : argv.length < 3
  · exact ⟨_, _, mainRun_short argv w h, by simp, by simp [stderrOf]⟩
  · match argv, h with
    | [], h => exact absurd (by simp) h
    | [_], h => exact absurd (by simp) h
    | [_, _], h => exact absurd (by simp) h
    | a0 :: a1 :: a2 :: rest, h =>
      exact ⟨_, _, mainRun_success a0 a1 a2 rest w, by simp, by simp [stderrOf]⟩

/-- C7: the run is a function of the argument list alone — two runs
with the same argument list but arbitrary environment variables,
configuration files and persisted state give the same trace and exit
status. -/
theorem C7_deterministic (argv : List String) (w w2 : World) :
    mainRun argv w = mainRun argv w2 := rfl

/-- C8: the two positional values are spliced verbatim into the fixed
format strings — whatever bytes they hold, including percent
directives, the standard output is the two prefixes with the raw values
in between, uninterpreted. -/
theorem C8_verbatim_echo (a0 a1 a2 : String) (rest : List String) (w : World) :
    ∃ es, mainRun (a0 :: a1 :: a2 :: rest) w = some (es, 0) ∧
      stdoutOf es =
        "input dir: " ++ a1 ++ "\n" ++ ("output dir: " ++ a2 ++ "\n") := by
  refine ⟨_, mainRun_success a0 a1 a2 rest w, ?_⟩
  simp [stdoutOf]

/-- C9: behaviour never depends on the invocation name — replacing the
token at position 0 while keeping the rest of the argument list changes
neither the trace nor the exit status (the name counts toward the
length check but its value is never read). -/
theorem C9_argv0_irrelevant (a0 a02 : String) (rest : List String) (w : World) :
    mainRun (a0 :: rest) w = mainRun (a02 :: rest) w := by
  simp [mainRun]

/-- C10: argument presence, not content, is what is checked — two empty
positional arguments pass the count check, the success path prints the
prefixes with empty values, and the exit status is 0. -/
theorem C10_empty_args (a0 : String) (w : World) :
    mainRun [a0, "", ""] w =
      some ([Effect.writeStdout "input dir: \n",
             Effect.writeStdout "output dir: \n"], 0) := by
  rw [show ([a0, "", ""] : List String) = a0 :: "" :: "" :: [] from rfl,
    mainRun_success]
  decide
